import Mathlib

/-!
Verification development for the farcaster-direct-casting repository.

The development shallowly embeds the code of `server.js` (HTTP handlers for
create-signer, signer-status, post-cast and user lookup, plus the in-memory
rate limiter) and of the flat-file database module (`saveUser`, `savePost`,
`saveSession`, `getSession`, `deleteSession`).  JavaScript objects are
modelled as association lists of string keys, the in-memory `Map`s as
association lists, the on-disk namespaces as functions from file key to
optional record, and every upstream network call (Neynar SDK, Farcaster
client API) as an explicit `Except` argument holding the value that call
would have produced.  JavaScript truthiness of the checked fields is
modelled explicitly (empty string and the number zero are falsy).
-/

/-- A JSON-ish primitive value: the embedding only needs strings and numbers. -/
inductive JVal where
  | jstr : String → JVal
  | jnum : Int → JVal
deriving DecidableEq, Repr

/-- JavaScript truthiness of a primitive value: "" and 0 are falsy. -/
def jsTruthyVal : JVal → Bool
  | .jstr s => !(s == "")
  | .jnum n => !(n == 0)

/-- JavaScript truthiness of a possibly-absent value: `undefined` is falsy. -/
def jsTruthy : Option JVal → Bool
  | none => false
  | some v => jsTruthyVal v

/-- JavaScript truthiness of a possibly-absent string field. -/
def jsTruthyStr : Option String → Bool
  | none => false
  | some s => !(s == "")

/-- The `x || null` idiom on an optional string field. -/
def jsOrNone (p : Option String) : Option String :=
  if jsTruthyStr p then p else none

/-- A JavaScript object, as an association list from field name to value. -/
def Obj : Type := List (String × JVal)

instance : DecidableEq Obj := by unfold Obj; infer_instance

instance : Repr Obj := by unfold Obj; infer_instance

/-- Field read on an object. -/
def objGet (o : Obj) (k : String) : Option JVal :=
  (o.find? (fun p => p.1 == k)).map (fun p => p.2)

/-- Field write on an object; models the spread `\x7b...o, k: v\x7d` which
overrides any existing binding of `k` (extensionally, the field order is
irrelevant because reads go through `objGet`). -/
def objSet (o : Obj) (k : String) (v : JVal) : Obj :=
  o.filter (fun p => p.1 != k) ++ [(k, v)]

/-- The template-string coercion used to build file names from a field,
`undefined` printing as "undefined". -/
def jsValToString : JVal → String
  | .jstr s => s
  | .jnum n => toString n

/-- Key string derived from an optional field value, as a JS template string. -/
def jsKeyStr : Option JVal → String
  | some v => jsValToString v
  | none => "undefined"

/-- `parseInt` restricted to the shapes the theorems need: numbers pass
through; decimal strings parse, anything else defaults (full JS `parseInt`
semantics are not needed by any claim). -/
def jsParseInt : JVal → Int
  | .jnum n => n
  | .jstr s => (s.toInt?).getD 0

/-! ## Flat-file database module (database/db.js) -/

/-- One on-disk namespace: file key (without the ".json" suffix) to record. -/
def Store : Type := String → Option Obj

/-- `writeJsonFile`: overwrite the record stored under a key. -/
def writeJson (s : Store) (k : String) (v : Obj) : Store :=
  fun k2 => if k2 = k then some v else s k2

/-- The three independent namespaces of the flat database. -/
structure FlatDB where
  users : Store
  posts : Store
  sessions : Store

/-- The empty namespace. -/
def emptyStore : Store := fun _ => none

/-- A database with all three namespaces empty. -/
def emptyDB : FlatDB := ⟨emptyStore, emptyStore, emptyStore⟩

/-- `saveUser` on the users namespace: keyed by the value's own `fid` field,
stores the record with an added `updatedAt` field. -/
def saveUserStore (users : Store) (userData : Obj) (nowIso : String) : Store :=
  writeJson users (jsKeyStr (objGet userData "fid"))
    (objSet userData "updatedAt" (.jstr nowIso))

/-- `saveUser(userData)` from database/db.js. -/
def saveUser (db : FlatDB) (userData : Obj) (nowIso : String) : FlatDB :=
  { db with users := saveUserStore db.users userData nowIso }

/-- `getUser(fid)` from database/db.js. -/
def getUser (db : FlatDB) (fid : String) : Option Obj :=
  db.users fid

/-- `savePost(postData)` from database/db.js: keyed by
`timestamp_hash`, stores the record with added `id`, `createdAt` and
`timestamp` fields (and no `updatedAt` field). -/
def savePost (db : FlatDB) (postData : Obj) (timestamp : Int) (nowIso : String) : FlatDB :=
  let fileName := toString timestamp ++ "_" ++ jsKeyStr (objGet postData "hash")
  let postRecord :=
    objSet (objSet (objSet postData "id" (.jstr fileName)) "createdAt" (.jstr nowIso))
      "timestamp" (.jnum timestamp)
  { db with posts := writeJson db.posts fileName postRecord }

/-- Read one post record back by its file key, as `readJsonFile` does for
each file inside `getAllPosts` and `getPostsByUser`. -/
def readPost (db : FlatDB) (k : String) : Option Obj :=
  db.posts k

/-- `saveSession(sessionData)` from database/db.js: keyed by the value's own
`signerUuid` field, stores the record with an added `updatedAt` field. -/
def saveSession (db : FlatDB) (sessionData : Obj) (nowIso : String) : FlatDB :=
  let record := objSet sessionData "updatedAt" (.jstr nowIso)
  { db with sessions := writeJson db.sessions (jsKeyStr (objGet sessionData "signerUuid")) record }

/-- `getSession(signerUuid)` from database/db.js. -/
def getSession (db : FlatDB) (signerUuid : String) : Option Obj :=
  db.sessions signerUuid

/-- `deleteSession(signerUuid)` from database/db.js: unlinks the file when it
exists, returning whether a file was removed. -/
def deleteSession (db : FlatDB) (signerUuid : String) : Bool × FlatDB :=
  if (db.sessions signerUuid).isSome then
    (true, { db with sessions := fun k2 => if k2 = signerUuid then none else db.sessions k2 })
  else
    (false, db)

/-! ## Server data model (server.js) -/

/-- The Ed25519 key material stored on a direct signer. -/
structure KeyPair where
  privateKey : Option String
  publicKey : Option String
deriving DecidableEq, Repr

/-- Truthiness of the check `signer.keypair && signer.keypair.privateKey`. -/
def kpTruthy : Option KeyPair → Bool
  | none => false
  | some kp => jsTruthyStr kp.privateKey

/-- An entry of the in-memory `activeSigners` map. -/
structure Signer where
  signerUuid : String
  status : String
  fid : Int
  provider : String
  createdAt : Int
  token : Option String
  keypair : Option KeyPair
  publicKey : Option String
  approvalUrl : Option String
deriving DecidableEq, Repr

/-- A cast record as written into the post store. -/
structure Cast where
  hash : String
  text : String
  signerUuid : String
  fid : Int
  timestamp : Int
  parentUrl : Option String
  provider : String
deriving DecidableEq, Repr

/-- The result of a successful Neynar `publishCast` upstream call. -/
structure NeynarCast where
  hash : String
  text : String
deriving DecidableEq, Repr

/-- The result of the Farcaster `signed-key-request` status poll. -/
structure SignedKeyRequest where
  state : String
  userFid : Option Int
deriving DecidableEq, Repr

/-- Association-list read, mirroring `Map.get`. -/
def lookupA {α : Type} (l : List (String × α)) (k : String) : Option α :=
  (l.find? (fun p => p.1 == k)).map (fun p => p.2)

/-- Association-list write, mirroring `Map.set` (extensionally: the slot
order is irrelevant because every read goes through `lookupA`). -/
def setA {α : Type} (l : List (String × α)) (k : String) (v : α) : List (String × α) :=
  l.filter (fun p => p.1 != k) ++ [(k, v)]

/-- The whole mutable server state: the in-memory signer map, the in-memory
rate-limit map, the post store and the session store.  Sessions are carried
as signer records, which is the shape the server always writes there. -/
structure ServerState where
  activeSigners : List (String × Signer)
  rateLimit : List (String × List Int)
  posts : List Cast
  sessions : List (String × Signer)
deriving DecidableEq, Repr

/-! ## Rate limiter (server.js, checkRateLimit) -/

/-- `RATE_LIMIT_WINDOW` (one minute, in milliseconds). -/
def RATE_LIMIT_WINDOW : Int := 60000

/-- `MAX_REQUESTS_PER_WINDOW`. -/
def MAX_REQUESTS_PER_WINDOW : Nat := 10

/-- `checkRateLimit(identifier)`: keeps the timestamps strictly inside the
trailing window; rejects without recording when they already reach the cap,
otherwise records the current time.  Returns the decision and the new
timestamp list for the identifier. -/
def checkRateLimit (requests : List Int) (now : Int) : Bool × List Int :=
  let windowStart := now - RATE_LIMIT_WINDOW
  let recentRequests := requests.filter (fun t => decide (windowStart < t))
  if MAX_REQUESTS_PER_WINDOW ≤ recentRequests.length then
    (false, requests)
  else
    (true, recentRequests ++ [now])

/-- Run a sequence of rate-limiter calls for one identifier, collecting the
decisions. -/
def runLimiter (ts0 : List Int) (times : List Int) : List Bool × List Int :=
  times.foldl (fun acc now =>
    let r := checkRateLimit acc.2 now
    (acc.1 ++ [r.1], r.2)) ([], ts0)

/-! ## Responses -/

/-- Response of the post-cast handler: HTTP status, the `error` field of the
JSON body when present, the `success` flag, and the cast record on success. -/
structure CastResponse where
  status : Nat
  error : Option String
  success : Bool
  cast : Option Cast
deriving DecidableEq, Repr

def respMissingFields : CastResponse :=
  ⟨400, some "Signer UUID and text are required", false, none⟩

def respRateLimited : CastResponse :=
  ⟨429, some "Rate limit exceeded. Please try again later.", false, none⟩

def respTooLong : CastResponse :=
  ⟨400, some "Cast text must be 320 characters or less", false, none⟩

def respSignerNotFound : CastResponse :=
  ⟨400, some "Signer not found", false, none⟩

def respNotApproved : CastResponse :=
  ⟨400, some "Signer not approved yet. Please complete the approval process first.", false, none⟩

def respKeysNotFound : CastResponse :=
  ⟨400, some "Ed25519 keys not found", false, none⟩

def respVerifyFailed : CastResponse :=
  ⟨500, some "Failed to verify signer status", false, none⟩

def respPendingOnchain : CastResponse :=
  ⟨400, some "Signer approved, waiting for on-chain confirmation", false, none⟩

def respNotFullyApproved : CastResponse :=
  ⟨400, some "Signer not fully approved", false, none⟩

def respTokenMissing : CastResponse :=
  ⟨400, some "Signer token missing", false, none⟩

def respUnknownProvider : CastResponse :=
  ⟨400, some "Unknown signer provider", false, none⟩

def respNeynarUnavailable : CastResponse :=
  ⟨500, some "Neynar client not available", false, none⟩

def respNeynarPublishFailed : CastResponse :=
  ⟨500, some "Failed to post cast via Neynar", false, none⟩

def respNeynarFallbackFailed : CastResponse :=
  ⟨500, some "Neynar posting failed, but Direct API is available", false, none⟩

def respEd25519Crashed : CastResponse :=
  ⟨500, some "Failed to post cast with Ed25519", false, none⟩

/-- Success response carrying the stored cast record. -/
def respCastOk (c : Cast) : CastResponse :=
  ⟨200, none, true, some c⟩

/-- Response of the signer-status handler. -/
structure StatusResponse where
  status : Nat
  success : Bool
  error : Option String
  signer : Option Signer
  realTime : Option SignedKeyRequest
deriving DecidableEq, Repr

/-- Response of the create-signer handler. -/
structure CreateResponse where
  status : Nat
  success : Bool
  error : Option String
  signer : Option Signer
deriving DecidableEq, Repr

/-! ## Handlers (server.js) -/

/-- `updateSession(signerUuid, updates)` specialized to signer records: a
merge of a full signer record over an existing one replaces every field, so
the stored record becomes `s` when the key exists and nothing happens
otherwise. -/
def updateSessionSigner (sessions : List (String × Signer)) (k : String) (s : Signer) :
    List (String × Signer) :=
  match lookupA sessions k with
  | some _ => setA sessions k s
  | none => sessions

/-- The POST /api/create-signer handler.  Checks field presence by
truthiness, then rate-limits by client IP, then stores a pre-approved SIWN
signer in the signer map and the session store. -/
def createSigner (st : ServerState) (fid signerUuid : Option JVal) (now : Int)
    (clientIP : String) : CreateResponse × ServerState :=
  if jsTruthy fid && jsTruthy signerUuid then
    let fidNum := jsParseInt (fid.getD (.jnum 0))
    let rl := checkRateLimit ((lookupA st.rateLimit clientIP).getD []) now
    let st1 := { st with rateLimit := setA st.rateLimit clientIP rl.2 }
    if rl.1 = false then
      (⟨429, false, some "Rate limit exceeded. Please try again later.", none⟩, st1)
    else
      let uuidStr := jsValToString (signerUuid.getD (.jstr ""))
      let signerInfo : Signer :=
        { signerUuid := uuidStr, status := "approved", fid := fidNum,
          provider := "neynar_siwn", createdAt := now, token := none,
          keypair := none, publicKey := none, approvalUrl := none }
      (⟨200, true, none, some signerInfo⟩,
       { st1 with activeSigners := setA st1.activeSigners uuidStr signerInfo,
                  sessions := setA st1.sessions uuidStr signerInfo })
  else
    (⟨400, false, some "FID and signerUuid are required for SIWN flow", none⟩, st)

/-- The GET /api/signer-status handler.  `neynarSigner` is the value the
Neynar `getSigner` call would produce (its status string); `live` is the
value the Farcaster signed-key-request poll would produce.  Upstream
failures are absorbed and the stored record is returned.  In the Neynar
branch the source persists under `signer.signer_uuid`, a field that does not
exist, so the session write targets the literal key "undefined". -/
def checkStatus (st : ServerState) (signerUuid : String) (neynarAvail : Bool)
    (neynarSigner : Except String String)
    (live : Except String SignedKeyRequest) : StatusResponse × ServerState :=
  match lookupA st.activeSigners signerUuid with
  | none => (⟨404, false, some "Signer not found", none, none⟩, st)
  | some signer =>
    if signer.provider = "neynar" && neynarAvail then
      match neynarSigner with
      | .ok liveStatus =>
        let signerInfo := { signer with status := liveStatus }
        (⟨200, true, none, some signerInfo, none⟩,
         { st with activeSigners := setA st.activeSigners signerUuid signerInfo,
                   sessions := updateSessionSigner st.sessions "undefined" signerInfo })
      | .error _ =>
        (⟨200, true, none, some signer, none⟩, st)
    else if signer.provider = "direct_farcaster" && jsTruthyStr signer.token then
      match live with
      | .ok realStatus =>
        if realStatus.state ≠ signer.status then
          let s1 := { signer with status := realStatus.state }
          let s2 := match realStatus.userFid with
                    | some f => if f ≠ 0 then { s1 with fid := f } else s1
                    | none => s1
          (⟨200, true, none, some s2, some realStatus⟩,
           { st with activeSigners := setA st.activeSigners signerUuid s2,
                     sessions := updateSessionSigner st.sessions signerUuid s2 })
        else
          (⟨200, true, none, some signer, some realStatus⟩, st)
      | .error _ =>
        (⟨200, true, none, some signer, none⟩, st)
    else
      (⟨200, true, none, some signer, none⟩, st)

/-- The POST /api/post-cast handler.  Checks, in source order: field
presence by truthiness, the per-IP rate limit, the 320-character length
bound, signer existence, the stored-status gate against the literal
"approved", then the provider branch.  `neynarPub` and `live` are the values
the corresponding upstream calls would produce.  In the direct branch with a
fresh live state of "completed", a missing `publicKey` makes the source
throw on `substring` of undefined, which its catch maps to the 500 Ed25519
failure response. -/
def postCast (st : ServerState) (signerUuid text parentUrl : Option String)
    (now : Int) (clientIP : String) (neynarAvail : Bool)
    (neynarPub : Except String NeynarCast)
    (live : Except String SignedKeyRequest) : CastResponse × ServerState :=
  if jsTruthyStr signerUuid && jsTruthyStr text then
    let uuid := signerUuid.getD ""
    let t := text.getD ""
    let rl := checkRateLimit ((lookupA st.rateLimit clientIP).getD []) now
    let st1 := { st with rateLimit := setA st.rateLimit clientIP rl.2 }
    if rl.1 = false then
      (respRateLimited, st1)
    else if 320 < t.length then
      (respTooLong, st1)
    else
      match lookupA st1.activeSigners uuid with
      | none => (respSignerNotFound, st1)
      | some signer =>
        if signer.status ≠ "approved" then (respNotApproved, st1)
        else if signer.provider = "neynar_siwn" then
          if neynarAvail then
            match neynarPub with
            | .ok c =>
              let castInfo : Cast :=
                { hash := c.hash, text := c.text, signerUuid := signer.signerUuid,
                  fid := signer.fid, timestamp := now, parentUrl := none,
                  provider := "neynar_siwn" }
              (respCastOk castInfo, { st1 with posts := st1.posts ++ [castInfo] })
            | .error _ => (respNeynarPublishFailed, st1)
          else (respNeynarUnavailable, st1)
        else if signer.provider = "direct_farcaster" then
          if !(kpTruthy signer.keypair) then (respKeysNotFound, st1)
          else if jsTruthyStr signer.token then
            match live with
            | .error _ => (respVerifyFailed, st1)
            | .ok skr =>
              if skr.state = "completed" then
                match signer.publicKey with
                | none => (respEd25519Crashed, st1)
                | some _ =>
                  let castInfo : Cast :=
                    { hash := "pending_hub_submission", text := t, signerUuid := uuid,
                      fid := signer.fid, timestamp := now,
                      parentUrl := jsOrNone parentUrl, provider := "direct_farcaster" }
                  (respCastOk castInfo, { st1 with posts := st1.posts ++ [castInfo] })
              else if skr.state = "approved" then (respPendingOnchain, st1)
              else (respNotFullyApproved, st1)
          else (respTokenMissing, st1)
        else if signer.provider = "neynar" && neynarAvail then
          match neynarPub with
          | .ok c =>
            let castInfo : Cast :=
              { hash := c.hash, text := c.text, signerUuid := uuid, fid := signer.fid,
                timestamp := now, parentUrl := jsOrNone parentUrl, provider := "neynar" }
            (respCastOk castInfo, { st1 with posts := st1.posts ++ [castInfo] })
          | .error _ => (respNeynarFallbackFailed, st1)
        else (respUnknownProvider, st1)
  else (respMissingFields, st)

/-- Run a sequence of identical post-cast requests at the given times,
collecting the responses. -/
def runPosts (st : ServerState) (su txt pu : Option String) (ip : String)
    (times : List Int) : List CastResponse × ServerState :=
  times.foldl (fun acc now =>
    let r := postCast acc.2 su txt pu now ip false (.error "down") (.error "down")
    (acc.1 ++ [r.1], r.2)) ([], st)

/-! ## Profile lookup (server.js, GET /api/user/:fid) -/

/-- Outcome of the direct Farcaster API fetch: the HTTP ok flag and the
`data.result.user` object when present. -/
structure DirectResp where
  ok : Bool
  user : Option Obj
deriving DecidableEq, Repr

/-- Response of the user-lookup handler. -/
structure UserResponse where
  status : Nat
  success : Bool
  error : Option String
  details : Option String
  user : Option Obj
  provider : Option String
deriving DecidableEq, Repr

/-- The combined failure surfaced when both providers fail. -/
def respBothFailed : UserResponse :=
  { status := 500, success := false, error := some "Failed to fetch user",
    details := some "Both Direct Farcaster API and Neynar failed to fetch user",
    user := none, provider := none }

/-- Whether the direct read failed to produce a user: a thrown fetch, a
non-ok response, or a body without `result.user`. -/
def directMiss : Except String DirectResp → Bool
  | .error _ => true
  | .ok r => !r.ok || r.user.isNone

/-- The user the direct-API try block returns with, if any: a thrown fetch,
a non-ok response, or a body without `result.user` all fall through. -/
def directHit : Except String DirectResp → Option Obj
  | .ok r => if r.ok then r.user else none
  | .error _ => none

/-- The GET /api/user/:fid handler.  The direct Farcaster read is attempted
first; the Neynar SDK is consulted only when the direct read throws, is
non-ok, or carries no user; when both fail the combined error is surfaced.
Successful lookups overwrite the user record on disk. -/
def getUserByFid (users : Store) (nowIso : String)
    (direct : Except String DirectResp) (neynarAvail : Bool)
    (neynarUsers : Except String (List Obj)) : UserResponse × Store :=
  match directHit direct with
  | some u =>
    ({ status := 200, success := true, error := none, details := none,
       user := some u, provider := some "direct_farcaster" },
     saveUserStore users u nowIso)
  | none =>
    if neynarAvail then
      match neynarUsers with
      | .ok (u :: _) =>
        ({ status := 200, success := true, error := none, details := none,
           user := some u, provider := some "neynar" },
         saveUserStore users u nowIso)
      | .ok [] => (respBothFailed, users)
      | .error _ => (respBothFailed, users)
    else (respBothFailed, users)

/-! ## Concrete scenario states -/

/-- Keypair of the end-to-end direct signer. -/
def kpC1 : KeyPair := { privateKey := some "c0ffee", publicKey := some "0xpub" }

/-- A DirectProtocol signer freshly created for fid 42, still pending. -/
def signerC1 : Signer :=
  { signerUuid := "sig1", status := "pending", fid := 42,
    provider := "direct_farcaster", createdAt := 0, token := some "tok1",
    keypair := some kpC1, publicKey := some "0xpub",
    approvalUrl := some "farcaster://signed-key-request?token=tok1" }

/-- Server state holding only that pending direct signer. -/
def stC1 : ServerState :=
  { activeSigners := [("sig1", signerC1)], rateLimit := [], posts := [],
    sessions := [("sig1", signerC1)] }

/-- The upstream signed-key-request poll after user approval finalized. -/
def skrCompleted : SignedKeyRequest := { state := "completed", userFid := some 42 }

/-- State after CheckStatus observed and persisted the completed state. -/
def stC1After : ServerState :=
  (checkStatus stC1 "sig1" false (Except.error "down") (Except.ok skrCompleted)).2

/-- The same direct signer but with stored status "approved". -/
def signerC1Approved : Signer := { signerC1 with status := "approved" }

/-- Server state holding the stored-approved direct signer. -/
def stC1Approved : ServerState :=
  { activeSigners := [("sig1", signerC1Approved)], rateLimit := [], posts := [],
    sessions := [("sig1", signerC1Approved)] }

/-- The cast record the direct publish path writes for "hello" at time 1000. -/
def castC1 : Cast :=
  { hash := "pending_hub_submission", text := "hello", signerUuid := "sig1",
    fid := 42, timestamp := 1000, parentUrl := none, provider := "direct_farcaster" }

/-- A 321-character text. -/
def longText : String := String.mk (List.replicate 321 'a')

/-- State whose rate-limit bucket for "ip" already holds ten fresh timestamps. -/
def stC2 : ServerState :=
  { activeSigners := [("sig1", signerC1Approved)],
    rateLimit := [("ip", [0, 1, 2, 3, 4, 5, 6, 7, 8, 9])], posts := [], sessions := [] }

/-- A direct signer whose stored status is not the approved gate value. -/
def signerC3 : Signer := { signerC1 with status := "pending_approval" }

/-- State holding only that pending-approval signer, empty rate limiter. -/
def stC3 : ServerState :=
  { activeSigners := [("sig1", signerC3)], rateLimit := [], posts := [], sessions := [] }

/-- State with an empty signer table. -/
def stC4 : ServerState :=
  { activeSigners := [], rateLimit := [], posts := [], sessions := [] }

/-- An approved direct signer with no keypair material stored. -/
def signerC8 : Signer :=
  { signerUuid := "sig8", status := "approved", fid := 7,
    provider := "direct_farcaster", createdAt := 0, token := some "tok8",
    keypair := none, publicKey := none, approvalUrl := none }

/-- State holding only that keyless approved signer. -/
def stC8 : ServerState :=
  { activeSigners := [("sig8", signerC8)], rateLimit := [], posts := [], sessions := [] }

/-- A concrete profile object. -/
def uC6 : Obj := [("fid", JVal.jnum 42), ("username", JVal.jstr "alice")]

/-- A concrete post payload (no updatedAt field of its own). -/
def postV : Obj := [("hash", JVal.jstr "h1"), ("text", JVal.jstr "hello")]

/-- A concrete session payload. -/
def sessV : Obj := [("signerUuid", JVal.jstr "sig1"), ("status", JVal.jstr "pending")]

/-! ## Helper lemmas -/

/-- Presence of a non-empty string field is truthy. -/
theorem jsTruthyStr_pos {s : String} (h : s ≠ "") : jsTruthyStr (some s) = true := by
  simp [jsTruthyStr, h]

/-- The rate limiter admits and records when the in-window count is below the cap. -/
theorem checkRateLimit_allow (ts : List Int) (now : Int)
    (h : (ts.filter (fun t => decide (now - RATE_LIMIT_WINDOW < t))).length
        < MAX_REQUESTS_PER_WINDOW) :
    checkRateLimit ts now
      = (true, ts.filter (fun t => decide (now - RATE_LIMIT_WINDOW < t)) ++ [now]) := by
  unfold checkRateLimit
  rw [if_neg (Nat.not_le.mpr h)]

/-- The rate limiter rejects without recording once the in-window count
reaches the cap. -/
theorem checkRateLimit_reject (ts : List Int) (now : Int)
    (h : MAX_REQUESTS_PER_WINDOW
        ≤ (ts.filter (fun t => decide (now - RATE_LIMIT_WINDOW < t))).length) :
    checkRateLimit ts now = (false, ts) := by
  unfold checkRateLimit
  rw [if_pos h]

/-- Timestamps at or before the window start are all dropped by the filter. -/
theorem filter_out_of_window (l : List Int) (now : Int)
    (h : ∀ t ∈ l, t ≤ now - RATE_LIMIT_WINDOW) :
    l.filter (fun t => decide (now - RATE_LIMIT_WINDOW < t)) = [] := by
  induction l with
  | nil => rfl
  | cons a tl ih =>
    have ha : ¬ (now - RATE_LIMIT_WINDOW < a) := not_lt.mpr (h a (List.mem_cons_self a tl))
    simp only [List.filter_cons, decide_eq_true_eq]
    rw [if_neg ha]
    exact ih (fun t ht => h t (List.mem_cons_of_mem a ht))

/-- Searching the written key in the list built by `objSet` finds the new
binding. -/
theorem find_objSet_self (l : List (String × JVal)) (k : String) (v : JVal) :
    ((l.filter (fun p => p.1 != k)) ++ [(k, v)]).find? (fun p => p.1 == k)
      = some (k, v) := by
  induction l with
  | nil => simp [List.find?]
  | cons hd tl ih =>
    by_cases hh : hd.1 = k
    · simp only [List.filter_cons, hh, bne_self_eq_false, if_false]
      exact ih
    · have hb : (hd.1 != k) = true := by simp [hh]
      have hm : (hd.1 == k) = false := by simp [hh]
      simp only [List.filter_cons, hb, if_true, List.cons_append, List.find?_cons, hm]
      exact ih

/-- Searching any other key in the list built by `objSet` behaves as on the
original list. -/
theorem find_objSet_other (l : List (String × JVal)) (k k2 : String) (v : JVal)
    (h : k2 ≠ k) :
    ((l.filter (fun p => p.1 != k)) ++ [(k, v)]).find? (fun p => p.1 == k2)
      = l.find? (fun p => p.1 == k2) := by
  have hkv : ((k, v).1 == k2) = false := by simp; exact Ne.symm h
  induction l with
  | nil => simp [List.find?, hkv]
  | cons hd tl ih =>
    by_cases hh : hd.1 = k
    · have hb : (hd.1 != k) = false := by simp [hh]
      have hm : (hd.1 == k2) = false := by
        simp only [hh]; simp; exact Ne.symm h
      simp only [List.filter_cons, hb, if_false, List.find?_cons, hm]
      exact ih
    · have hb : (hd.1 != k) = true := by simp [hh]
      by_cases h2 : hd.1 = k2
      · have hm : (hd.1 == k2) = true := by simp [h2]
        simp only [List.filter_cons, hb, if_true, List.cons_append, List.find?_cons, hm]
      · have hm : (hd.1 == k2) = false := by simp [h2]
        simp only [List.filter_cons, hb, if_true, List.cons_append, List.find?_cons, hm]
        exact ih

/-- Reading back the field just written by `objSet`. -/
theorem objGet_objSet_self (o : Obj) (k : String) (v : JVal) :
    objGet (objSet o k v) k = some v := by
  unfold objGet objSet
  rw [find_objSet_self]
  rfl

/-- `objSet` leaves every other field unchanged. -/
theorem objGet_objSet_other (o : Obj) (k : String) (v : JVal) (k2 : String)
    (h : k2 ≠ k) :
    objGet (objSet o k v) k2 = objGet o k2 := by
  unfold objGet objSet
  rw [find_objSet_other _ _ _ _ h]

/-! ## Claim theorems -/

/-- C7: for a fixed identifier the rate limiter admits and records a request
while fewer than the cap (10) of the recorded timestamps fall in the
trailing 60-second window, rejects without recording once the cap is
reached, admits again once every recorded timestamp has left the window,
and on a fresh identifier the eleventh request inside one window is the
first rejected one. -/
theorem c7_rate_limiter_window (ts : List Int) (now : Int) :
    ((ts.filter (fun t => decide (now - RATE_LIMIT_WINDOW < t))).length
        < MAX_REQUESTS_PER_WINDOW →
      checkRateLimit ts now
        = (true, ts.filter (fun t => decide (now - RATE_LIMIT_WINDOW < t)) ++ [now]))
    ∧ (MAX_REQUESTS_PER_WINDOW
        ≤ (ts.filter (fun t => decide (now - RATE_LIMIT_WINDOW < t))).length →
      checkRateLimit ts now = (false, ts))
    ∧ ((∀ t ∈ ts, t ≤ now - RATE_LIMIT_WINDOW) → checkRateLimit ts now = (true, [now]))
    ∧ runLimiter [] [0, 1, 2, 3, 4, 5, 6, 7, 8, 9, 10]
        = ([true, true, true, true, true, true, true, true, true, true, false],
           [0, 1, 2, 3, 4, 5, 6, 7, 8, 9])
    ∧ checkRateLimit [0, 1, 2, 3, 4, 5, 6, 7, 8, 9] 60010 = (true, [60010]) := by
  refine ⟨checkRateLimit_allow ts now, checkRateLimit_reject ts now, ?_, by decide, by decide⟩
  intro h
  have hf := filter_out_of_window ts now h
  rw [checkRateLimit_allow ts now (by rw [hf]; decide)]
  rw [hf]
  rfl

/-- C7 witness: the general clauses applied to concrete timestamp lists. -/
theorem c7_rate_limiter_window_witness :
    checkRateLimit [0, 1, 2, 3, 4, 5] 10 = (true, [0, 1, 2, 3, 4, 5, 10])
    ∧ checkRateLimit [0, 1, 2, 3, 4, 5, 6, 7, 8, 9] 10
        = (false, [0, 1, 2, 3, 4, 5, 6, 7, 8, 9])
    ∧ checkRateLimit [0, 1, 2, 3] 60010 = (true, [60010]) :=
  ⟨((c7_rate_limiter_window [0, 1, 2, 3, 4, 5] 10).1 (by decide)).trans (by decide),
   (c7_rate_limiter_window [0, 1, 2, 3, 4, 5, 6, 7, 8, 9] 10).2.1 (by decide),
   (c7_rate_limiter_window [0, 1, 2, 3] 60010).2.2.1 (by decide)⟩

/-- C5: when the signer exists and the upstream live-status call fails
(whichever provider branch would issue it), the status check still succeeds
with HTTP 200, returns the stored signer record unchanged, and leaves the
whole server state unchanged. -/
theorem c5_checkstatus_fail_open (st : ServerState) (uuid : String) (s : Signer)
    (avail : Bool) (e1 e2 : String)
    (h : lookupA st.activeSigners uuid = some s) :
    checkStatus st uuid avail (Except.error e1) (Except.error e2)
      = (⟨200, true, none, some s, none⟩, st) := by
  unfold checkStatus
  simp only [h, ite_self]

/-- C5 witness: a direct signer with a token, both upstream calls failing. -/
theorem c5_checkstatus_fail_open_witness :
    checkStatus stC1 "sig1" true (Except.error "a") (Except.error "b")
      = (⟨200, true, none, some signerC1, none⟩, stC1) :=
  c5_checkstatus_fail_open stC1 "sig1" signerC1 true "a" "b" (by decide)

/-- C6: the profile lookup attempts the direct read first (when it yields a
user the Neynar oracle is irrelevant and the result carries the direct
provider tag), falls back to the Neynar SDK only when the direct read
misses, tags a successful fallback with the neynar provider, and surfaces
the combined failure when the SDK also fails, is unavailable, or returns no
user. -/
theorem c6_profile_direct_first_fallback
    (users : Store) (iso : String) (u : Obj) (rest : List Obj)
    (avail avail2 : Bool) (nu nu2 : Except String (List Obj))
    (d : Except String DirectResp) (e : String)
    (hd : directMiss d = true) :
    (getUserByFid users iso (Except.ok ⟨true, some u⟩) avail nu
        = ({ status := 200, success := true, error := none, details := none,
             user := some u, provider := some "direct_farcaster" },
           saveUserStore users u iso)
      ∧ getUserByFid users iso (Except.ok ⟨true, some u⟩) avail nu
        = getUserByFid users iso (Except.ok ⟨true, some u⟩) avail2 nu2)
    ∧ getUserByFid users iso d true (Except.ok (u :: rest))
        = ({ status := 200, success := true, error := none, details := none,
             user := some u, provider := some "neynar" },
           saveUserStore users u iso)
    ∧ getUserByFid users iso d true (Except.error e) = (respBothFailed, users)
    ∧ getUserByFid users iso d false nu = (respBothFailed, users)
    ∧ getUserByFid users iso d true (Except.ok []) = (respBothFailed, users) := by
  have hmiss : directHit d = none := by
    cases d with
    | error _ => rfl
    | ok r =>
      rcases r with ⟨rok, ruser⟩
      cases rok
      · rfl
      · simp only [directMiss, Bool.not_true, Bool.false_or] at hd
        cases ruser
        · rfl
        · simp at hd
  refine ⟨⟨rfl, rfl⟩, ?_, ?_, ?_, ?_⟩ <;> simp [getUserByFid, hmiss]

/-- C6 witness: the clauses at a concrete profile object and oracles. -/
theorem c6_profile_direct_first_fallback_witness :
    getUserByFid emptyStore "iso" (Except.ok ⟨true, some uC6⟩) false (Except.error "x")
      = ({ status := 200, success := true, error := none, details := none,
           user := some uC6, provider := some "direct_farcaster" },
         saveUserStore emptyStore uC6 "iso")
    ∧ getUserByFid emptyStore "iso" (Except.error "boom") true (Except.ok [uC6])
      = ({ status := 200, success := true, error := none, details := none,
           user := some uC6, provider := some "neynar" },
         saveUserStore emptyStore uC6 "iso")
    ∧ getUserByFid emptyStore "iso" (Except.error "boom") true (Except.error "also")
      = (respBothFailed, emptyStore) := by
  have h := c6_profile_direct_first_fallback emptyStore "iso" uC6 [] false false
    (Except.error "x") (Except.error "x") (Except.error "boom") "also" (by decide)
  exact ⟨h.1.1, h.2.1, h.2.2.1⟩

/-- C9 (amended): in the user and session namespaces a save followed by a
read of the same key returns the value with the `updatedAt` field set, a
deleted session reads back as absent, and the delete reports whether a
record existed; the added field is readable and (by `objGet_objSet_other`)
every other field is preserved. -/
theorem c9_store_round_trip (db : FlatDB) (u v : Obj) (ts : String) (k : String) :
    getUser (saveUser db u ts) (jsKeyStr (objGet u "fid"))
      = some (objSet u "updatedAt" (.jstr ts))
    ∧ getSession (saveSession db v ts) (jsKeyStr (objGet v "signerUuid"))
      = some (objSet v "updatedAt" (.jstr ts))
    ∧ objGet (objSet v "updatedAt" (.jstr ts)) "updatedAt" = some (.jstr ts)
    ∧ getSession (deleteSession db k).2 k = none
    ∧ (deleteSession db k).1 = (db.sessions k).isSome := by
  refine ⟨?_, ?_, objGet_objSet_self v _ _, ?_, ?_⟩
  · simp [getUser, saveUser, saveUserStore, writeJson]
  · simp [getSession, saveSession, writeJson]
  · cases hs : db.sessions k with
    | none => simp [deleteSession, getSession, hs]
    | some o => simp [deleteSession, getSession, hs]
  · cases hs : db.sessions k with
    | none => simp [deleteSession, hs]
    | some o => simp [deleteSession, hs]

/-- C9 counterexample: in the post namespace the saved record carries `id`,
`createdAt` and `timestamp` but no `updatedAt` field, so the read-back is
not the value augmented with `updatedAt` (contrast the last conjunct). -/
theorem c9_posts_no_updated_field_cex :
    readPost (savePost emptyDB postV 1700 "2024-01-01T00:00:00Z") "1700_h1"
      = some (objSet (objSet (objSet postV "id" (.jstr "1700_h1"))
          "createdAt" (.jstr "2024-01-01T00:00:00Z")) "timestamp" (.jnum 1700))
    ∧ objGet (objSet (objSet (objSet postV "id" (.jstr "1700_h1"))
          "createdAt" (.jstr "2024-01-01T00:00:00Z")) "timestamp" (.jnum 1700))
        "updatedAt" = none
    ∧ objGet (objSet postV "updatedAt" (.jstr "2024-01-01T00:00:00Z")) "updatedAt"
      = some (.jstr "2024-01-01T00:00:00Z") := by
  refine ⟨by decide, by decide, by decide⟩

/-- C10: the presence checks are truthiness-based, so a present-but-falsy
required field is rejected exactly like a missing one: create-signer with
fid 0 and post-cast with empty text both return the 400 missing-fields
response before any other processing, leaving the state untouched. -/
theorem c10_falsy_presence (st : ServerState) (now : Int) (ip : String)
    (pu : Option String) (avail : Bool) (np : Except String NeynarCast)
    (lv : Except String SignedKeyRequest) :
    createSigner st (some (JVal.jnum 0)) (some (JVal.jstr "abc")) now ip
      = (⟨400, false, some "FID and signerUuid are required for SIWN flow", none⟩, st)
    ∧ postCast st (some "sig1") (some "") pu now ip avail np lv
      = (respMissingFields, st) := by
  constructor
  · simp [createSigner, jsTruthy, jsTruthyVal]
  · simp [postCast, jsTruthyStr]

/-- C8: a publish on a direct signer that passes presence, rate limit,
length and the stored-status gate but lacks keypair material (absent
keypair or falsy private key) is rejected with the 400 keys-not-found
response and writes no Post. -/
theorem c8_direct_missing_keys
    (st : ServerState) (u t : String) (pu : Option String) (now : Int) (ip : String)
    (avail : Bool) (np : Except String NeynarCast) (lv : Except String SignedKeyRequest)
    (signer : Signer)
    (hu : u ≠ "") (ht : t ≠ "")
    (hrl : (((lookupA st.rateLimit ip).getD []).filter
        (fun x => decide (now - RATE_LIMIT_WINDOW < x))).length < MAX_REQUESTS_PER_WINDOW)
    (hlen : t.length ≤ 320)
    (hsig : lookupA st.activeSigners u = some signer)
    (hst : signer.status = "approved")
    (hpr : signer.provider = "direct_farcaster")
    (hkp : kpTruthy signer.keypair = false) :
    (postCast st (some u) (some t) pu now ip avail np lv).1 = respKeysNotFound
    ∧ ((postCast st (some u) (some t) pu now ip avail np lv).2).posts = st.posts := by
  have hrl2 := checkRateLimit_allow _ now hrl
  have hlen2 : ¬ (320 < t.length) := Nat.not_lt.mpr hlen
  have hne : ¬ (("direct_farcaster" : String) = "neynar_siwn") := by decide
  constructor <;>
    simp [postCast, jsTruthyStr, hu, ht, hrl2, hlen2, hsig, hst, hpr, hne, hkp]

/-- C8 witness: the keyless approved direct signer at concrete inputs. -/
theorem c8_direct_missing_keys_witness :
    (postCast stC8 (some "sig8") (some "hi") none 5 "ip" false
        (Except.error "down") (Except.error "down")).1 = respKeysNotFound
    ∧ ((postCast stC8 (some "sig8") (some "hi") none 5 "ip" false
        (Except.error "down") (Except.error "down")).2).posts = stC8.posts :=
  c8_direct_missing_keys stC8 "sig8" "hi" none 5 "ip" false
    (Except.error "down") (Except.error "down") signerC8
    (by decide) (by decide) (by decide) (by decide) (by decide)
    (by decide) (by decide) (by decide)

/-- C3 (amended): a publish on an existing signer whose stored status is not
the gate value "approved" is rejected with the 400 not-approved response
whenever the rate limiter admits the call; no Post is written and the
signer table and session store are untouched, so identical admitted calls
repeat the same rejection until the stored status changes — but each such
call is still recorded by the rate limiter (see the counterexample). -/
theorem c3_not_ready_rejection
    (st : ServerState) (u t : String) (pu : Option String) (now : Int) (ip : String)
    (avail : Bool) (np : Except String NeynarCast) (lv : Except String SignedKeyRequest)
    (signer : Signer)
    (hu : u ≠ "") (ht : t ≠ "")
    (hrl : (((lookupA st.rateLimit ip).getD []).filter
        (fun x => decide (now - RATE_LIMIT_WINDOW < x))).length < MAX_REQUESTS_PER_WINDOW)
    (hlen : t.length ≤ 320)
    (hsig : lookupA st.activeSigners u = some signer)
    (hst : signer.status ≠ "approved") :
    (postCast st (some u) (some t) pu now ip avail np lv).1 = respNotApproved
    ∧ ((postCast st (some u) (some t) pu now ip avail np lv).2).posts = st.posts
    ∧ ((postCast st (some u) (some t) pu now ip avail np lv).2).activeSigners
        = st.activeSigners
    ∧ ((postCast st (some u) (some t) pu now ip avail np lv).2).sessions = st.sessions := by
  have hrl2 := checkRateLimit_allow _ now hrl
  have hlen2 : ¬ (320 < t.length) := Nat.not_lt.mpr hlen
  refine ⟨?_, ?_, ?_, ?_⟩ <;>
    simp [postCast, jsTruthyStr, hu, ht, hrl2, hlen2, hsig, hst]

/-- C3 witness: the pending-approval direct signer at concrete inputs. -/
theorem c3_not_ready_rejection_witness :
    (postCast stC3 (some "sig1") (some "hi") none 0 "ip" false
        (Except.error "down") (Except.error "down")).1 = respNotApproved
    ∧ ((postCast stC3 (some "sig1") (some "hi") none 0 "ip" false
        (Except.error "down") (Except.error "down")).2).posts = stC3.posts
    ∧ ((postCast stC3 (some "sig1") (some "hi") none 0 "ip" false
        (Except.error "down") (Except.error "down")).2).activeSigners
        = stC3.activeSigners
    ∧ ((postCast stC3 (some "sig1") (some "hi") none 0 "ip" false
        (Except.error "down") (Except.error "down")).2).sessions = stC3.sessions :=
  c3_not_ready_rejection stC3 "sig1" "hi" none 0 "ip" false
    (Except.error "down") (Except.error "down") signerC3
    (by decide) (by decide) (by decide) (by decide) (by decide) (by decide)

/-- C3 counterexample: eleven identical not-ready publishes inside one
window do not all produce the same rejection — the first ten are rejected
with the not-approved response (and are recorded by the rate limiter), the
eleventh is rejected with 429. -/
theorem c3_repetition_hits_rate_limit_cex :
    (runPosts stC3 (some "sig1") (some "hi") none "ip"
        [0, 1, 2, 3, 4, 5, 6, 7, 8, 9, 10]).1
      = [respNotApproved, respNotApproved, respNotApproved, respNotApproved,
         respNotApproved, respNotApproved, respNotApproved, respNotApproved,
         respNotApproved, respNotApproved, respRateLimited]
    ∧ respRateLimited ≠ respNotApproved := by
  constructor
  · decide
  · decide

/-- C2 (amended): an over-long publish is rejected with the 400 too-long
validation response whenever the caller is present and the rate limiter
admits the call; and with an over-long text no Post is ever written, rate
limited or not, present signer id or not. -/
theorem c2_too_long_validation (st : ServerState) (su : Option String) (t : String)
    (pu : Option String) (now : Int) (ip : String) (avail : Bool)
    (np : Except String NeynarCast) (lv : Except String SignedKeyRequest)
    (hlen : 320 < t.length) :
    (jsTruthyStr su = true →
      (((lookupA st.rateLimit ip).getD []).filter
          (fun x => decide (now - RATE_LIMIT_WINDOW < x))).length
        < MAX_REQUESTS_PER_WINDOW →
      (postCast st su (some t) pu now ip avail np lv).1 = respTooLong)
    ∧ ((postCast st su (some t) pu now ip avail np lv).2).posts = st.posts := by
  have ht : t ≠ "" := by
    intro hemp
    rw [hemp] at hlen
    simp at hlen
  have ht2 : jsTruthyStr (some t) = true := jsTruthyStr_pos ht
  constructor
  · intro hsu hrl
    have hrl2 := checkRateLimit_allow _ now hrl
    simp [postCast, hsu, ht2, hrl2, hlen]
  · by_cases hsu : jsTruthyStr su = true
    · rcases hcr : checkRateLimit ((lookupA st.rateLimit ip).getD []) now with ⟨ok, L⟩
      cases ok
      · simp [postCast, hsu, ht2, hcr]
      · simp [postCast, hsu, ht2, hcr, hlen]
    · have hsu2 : jsTruthyStr su = false := by
        cases hb : jsTruthyStr su
        · rfl
        · exact absurd hb hsu
      simp [postCast, hsu2]

set_option maxRecDepth 8000 in
/-- C2 witness: a 321-character text on a present signer id with an
admitting rate limiter. -/
theorem c2_too_long_validation_witness :
    (postCast stC3 (some "sig1") (some longText) none 0 "ip" false
        (Except.error "down") (Except.error "down")).1 = respTooLong
    ∧ ((postCast stC3 (some "sig1") (some longText) none 0 "ip" false
        (Except.error "down") (Except.error "down")).2).posts = stC3.posts := by
  have h := c2_too_long_validation stC3 (some "sig1") longText none 0 "ip" false
    (Except.error "down") (Except.error "down") (by decide)
  exact ⟨h.1 (by decide) (by decide), h.2⟩

set_option maxRecDepth 8000 in
/-- C2 counterexample: an over-long publish from a rate-limited caller is
rejected with 429, not with the too-long validation response, so the
unconditional claim fails (no Post is written either way). -/
theorem c2_rate_limit_preempts_validation_cex :
    (postCast stC2 (some "sig1") (some longText) none 10 "ip" false
        (Except.error "down") (Except.error "down")).1 = respRateLimited
    ∧ respRateLimited ≠ respTooLong := by
  constructor
  · decide
  · decide

/-- C4 (amended): a within-limit publish naming an unknown signer fails
with the unknown-signer error, which post-cast returns with HTTP 400 — not
404 — distinguishable from the missing-fields and too-long validation
errors only by its message; no Post is written. -/
theorem c4_unknown_signer_http400
    (st : ServerState) (u t : String) (pu : Option String) (now : Int) (ip : String)
    (avail : Bool) (np : Except String NeynarCast) (lv : Except String SignedKeyRequest)
    (hu : u ≠ "") (ht : t ≠ "")
    (hrl : (((lookupA st.rateLimit ip).getD []).filter
        (fun x => decide (now - RATE_LIMIT_WINDOW < x))).length < MAX_REQUESTS_PER_WINDOW)
    (hlen : t.length ≤ 320)
    (hnone : lookupA st.activeSigners u = none) :
    (postCast st (some u) (some t) pu now ip avail np lv).1 = respSignerNotFound
    ∧ ((postCast st (some u) (some t) pu now ip avail np lv).2).posts = st.posts
    ∧ respSignerNotFound.status = 400
    ∧ respSignerNotFound.status ≠ 404
    ∧ respSignerNotFound.error ≠ respMissingFields.error
    ∧ respSignerNotFound.error ≠ respTooLong.error := by
  have hrl2 := checkRateLimit_allow _ now hrl
  have hlen2 : ¬ (320 < t.length) := Nat.not_lt.mpr hlen
  refine ⟨?_, ?_, rfl, by decide, by decide, by decide⟩ <;>
    simp [postCast, jsTruthyStr, hu, ht, hrl2, hlen2, hnone]

/-- C4 witness: an unknown signer id on the empty signer table. -/
theorem c4_unknown_signer_http400_witness :
    (postCast stC4 (some "zzz") (some "hi") none 0 "ip" false
        (Except.error "down") (Except.error "down")).1 = respSignerNotFound
    ∧ ((postCast stC4 (some "zzz") (some "hi") none 0 "ip" false
        (Except.error "down") (Except.error "down")).2).posts = stC4.posts
    ∧ respSignerNotFound.status = 400
    ∧ respSignerNotFound.status ≠ 404
    ∧ respSignerNotFound.error ≠ respMissingFields.error
    ∧ respSignerNotFound.error ≠ respTooLong.error :=
  c4_unknown_signer_http400 stC4 "zzz" "hi" none 0 "ip" false
    (Except.error "down") (Except.error "down")
    (by decide) (by decide) (by decide) (by decide) (by decide)

/-- C4 counterexample: the claim maps the unknown-signer rejection of
Publish to HTTP 404; evaluating the handler on an unknown signer yields
status 400 with the unknown-signer message, and 400 is not 404. -/
theorem c4_notfound_maps_to_400_cex :
    (postCast stC4 (some "zzz") (some "hi") none 0 "ip" false
        (Except.error "down") (Except.error "down")).1.status = 400
    ∧ ¬ ((postCast stC4 (some "zzz") (some "hi") none 0 "ip" false
        (Except.error "down") (Except.error "down")).1.status = 404)
    ∧ (postCast stC4 (some "zzz") (some "hi") none 0 "ip" false
        (Except.error "down") (Except.error "down")).1.error = some "Signer not found" := by
  refine ⟨by decide, by decide, by decide⟩

/-- C1: evaluating the code on the end-to-end scenario.  CheckStatus on the
pending direct signer observes the upstream state "completed" and persists
it to the signer table and session store; the subsequent short publish is
then rejected by the stored-status gate (which compares to the literal
"approved", not to a provider-specific ready value) with the 400
not-approved response and writes no Post — while the same publish on the
same signer with stored status "approved" does reach the completed-state
posting branch and returns the direct cast for fid 42, showing the
completed-state path the gate makes unreachable. -/
theorem c1_completed_direct_signer_rejected :
    ((checkStatus stC1 "sig1" false (Except.error "down") (Except.ok skrCompleted)).1.signer.map
        Signer.status = some "completed")
    ∧ ((lookupA stC1After.activeSigners "sig1").map Signer.status = some "completed")
    ∧ ((lookupA stC1After.sessions "sig1").map Signer.status = some "completed")
    ∧ (postCast stC1After (some "sig1") (some "hello") none 1000 "ip" false
        (Except.error "down") (Except.ok skrCompleted)).1 = respNotApproved
    ∧ ((postCast stC1After (some "sig1") (some "hello") none 1000 "ip" false
        (Except.error "down") (Except.ok skrCompleted)).2).posts = []
    ∧ (postCast stC1Approved (some "sig1") (some "hello") none 1000 "ip" false
        (Except.error "down") (Except.ok skrCompleted)).1 = respCastOk castC1
    ∧ ((postCast stC1Approved (some "sig1") (some "hello") none 1000 "ip" false
        (Except.error "down") (Except.ok skrCompleted)).2).posts = [castC1] := by
  refine ⟨by decide, by decide, by decide, by decide, by decide, by decide, by decide⟩
